import Mathlib

/-!
Verification of the Arch-Linux install scripts (repository `Jvpl001/Scripts`).

This file gives a shallow embedding of the parts of the Python sources that the
specification talks about:

* input validators and re-prompt loops (`src/Phases/user_input.py`,
  `src/Arch-Install-V2.py`, `src/New-V2/phases/fdisk_setup.py`,
  `src/auto_partition.py`);
* partition-path derivation (`src/New-V2/phases/fdisk_setup.py`,
  `src/auto_partition.py`);
* the command executors (`src/Phases/liberary.py`, `src/Arch-Install-V2.py`);
* the second-stage (chroot) script generators (`src/Phases/base_install.py`,
  `src/arch_install_v1.py`) and the fstab persistence step;
* the base-install step sequence (`src/Phases/base_install.py`);
* the mount/swap acquisition sequence and the interrupt / fatal-error cleanup
  paths (`src/Arch-Install-V2.py`).

Python strings are modelled as Lean `String`s (and `List Char` where character
level reasoning is needed).  Python `re.fullmatch` patterns are modelled by
executable boolean matchers on `List Char`; the Python `\d` class is modelled
by ASCII digits (the scripts only ever deal with ASCII device names, and none
of the proved properties is sensitive to the wider Unicode digit class).
-/

namespace Scripts

/-! ## Character classes -/

def isLowerAlpha (c : Char) : Bool := 'a' ≤ c && c ≤ 'z'

def isUpperAlpha (c : Char) : Bool := 'A' ≤ c && c ≤ 'Z'

def isAsciiDigit (c : Char) : Bool := '0' ≤ c && c ≤ '9'

def isAlnum (c : Char) : Bool := isLowerAlpha c || isUpperAlpha c || isAsciiDigit c

/-- Character class `[a-z0-9_-]` used by the username patterns. -/
def isUsernameTail (c : Char) : Bool :=
  isLowerAlpha c || isAsciiDigit c || c = '_' || c = '-'

/-- Character class `[a-zA-Z0-9-]` used by the hostname patterns. -/
def isAlnumDash (c : Char) : Bool := isAlnum c || c = '-'

/-! ## Regular-expression models

Each `matches…` definition models one `re.fullmatch` pattern from the sources.
-/

/-- Model of `re.fullmatch(r"[a-z_][a-z0-9_-]*", name)` —
`validate_username` in `src/Arch-Install-V2.py` (line 250) and
`_valid_username` in `src/Phases/user_input.py` (line 32). -/
def matchesUsernameRe : List Char → Bool
  | [] => false
  | c :: rest => (isLowerAlpha c || c = '_') && rest.all isUsernameTail

/-- Model of `re.fullmatch(r"[a-zA-Z0-9]([a-zA-Z0-9-]*[a-zA-Z0-9])?", hostname)` —
`validate_hostname` in `src/Arch-Install-V2.py` (line 254).
The optional group matches a possibly empty run of `[a-zA-Z0-9-]` followed by a
final alphanumeric character. -/
def matchesHostnameReV2 : List Char → Bool
  | [] => false
  | c :: rest =>
    isAlnum c &&
      (rest.isEmpty ||
        (rest.dropLast.all isAlnumDash &&
          (match rest.getLast? with
           | some d => isAlnum d
           | none => false)))

/-- Model of `re.fullmatch(r"[A-Za-z0-9](?:[A-Za-z0-9-]{0,61}[A-Za-z0-9])?", name)` —
`_valid_hostname` in `src/Phases/user_input.py` (line 45).  Identical to the
V2 pattern except the middle run is bounded to at most 61 characters. -/
def matchesHostnameRePhases : List Char → Bool
  | [] => false
  | c :: rest =>
    isAlnum c &&
      (rest.isEmpty ||
        (rest.dropLast.all isAlnumDash && rest.dropLast.length ≤ 61 &&
          (match rest.getLast? with
           | some d => isAlnum d
           | none => false)))

/-- Model of `re.fullmatch(r"[a-zA-Z0-9]+", name)` — `validate_disk_name` in
`src/Arch-Install-V2.py` (line 246) and `src/auto_partition.py`. -/
def matchesDiskNameRe (l : List Char) : Bool :=
  !l.isEmpty && l.all isAlnum

/-- Model of `re.fullmatch(r"sd[a-z]", name)` — the first disjunct of the drive-name
gate in `src/New-V2/phases/fdisk_setup.py` (line 45). -/
def matchesSdLower : List Char → Bool
  | [a, b, c] => a = 's' && b = 'd' && isLowerAlpha c
  | _ => false

/-- Longest digit prefix of a character list, together with the rest.
Used to model the greedy `\d+` pieces of `nvme\d+n\d+`. -/
def takeDigits : List Char → List Char × List Char
  | [] => ([], [])
  | c :: rest =>
    if isAsciiDigit c then
      let p := takeDigits rest
      (c :: p.1, p.2)
    else ([], c :: rest)

/-- The `\d+n\d+` tail of the NVMe pattern: a nonempty digit run, an `n`, and
a final nonempty digit run consuming the rest.  Since `n` is not a digit, the
greedy `\d+` never needs backtracking and longest-digit-run matching is
exact. -/
def nvmeTail (rest : List Char) : Bool :=
  !(takeDigits rest).1.isEmpty &&
    (match (takeDigits rest).2 with
     | c :: r2 =>
       c = 'n' && !(takeDigits r2).1.isEmpty && (takeDigits r2).2.isEmpty
     | [] => false)

/-- Model of `re.fullmatch(r"nvme\d+n\d+", name)` — the second disjunct of the
drive-name gate in `src/New-V2/phases/fdisk_setup.py` (line 45). -/
def matchesNvme : List Char → Bool
  | a :: b :: c :: d :: rest =>
    a = 'n' && b = 'v' && c = 'm' && d = 'e' && nvmeTail rest
  | _ => false

/-- Model of `re.fullmatch("sd.", name)` — the naming-style fork in
`src/New-V2/phases/fdisk_setup.py` (line 64).  Python `.` matches any
character except a newline. -/
def matchesSdDot : List Char → Bool
  | [a, b, c] => a = 's' && b = 'd' && c ≠ '\n'
  | _ => false

/-! ## Validators -/

/-- Model of `validate_disk_name` (`src/Arch-Install-V2.py` line 246 and
`src/auto_partition.py`): `re.fullmatch(r"[a-zA-Z0-9]+", name) is not None`. -/
def validate_disk_name (s : String) : Bool := matchesDiskNameRe s.data

/-- Model of `validate_username` (`src/Arch-Install-V2.py` line 250):
`re.fullmatch(r"[a-z_][a-z0-9_-]*", username) is not None and 3 <= len(username) <= 32`. -/
def validate_username_v2 (s : String) : Bool :=
  matchesUsernameRe s.data && decide (3 ≤ s.data.length) && decide (s.data.length ≤ 32)

/-- Model of `_valid_username` (`src/Phases/user_input.py` line 32):
`bool(re.fullmatch(r"[a-z_][a-z0-9_-]*", name)) and len(name) <= 32`.
Note: no lower bound on the length. -/
def valid_username_phases (s : String) : Bool :=
  matchesUsernameRe s.data && decide (s.data.length ≤ 32)

/-- Model of `validate_hostname` (`src/Arch-Install-V2.py` line 254):
regex fullmatch and `2 <= len(hostname) <= 63`. -/
def validate_hostname_v2 (s : String) : Bool :=
  matchesHostnameReV2 s.data && decide (2 ≤ s.data.length) && decide (s.data.length ≤ 63)

/-- Model of `_valid_hostname` (`src/Phases/user_input.py` line 45): regex fullmatch
only; the length bounds (1–63) are implicit in the pattern. -/
def valid_hostname_phases (s : String) : Bool :=
  matchesHostnameRePhases s.data

/-- Drive-name gate of `run_fdisk` (`src/New-V2/phases/fdisk_setup.py`
line 45): `re.fullmatch(r"sd[a-z]", name) or re.fullmatch(r"nvme\d+n\d+", name)`. -/
def validDriveName (s : String) : Bool :=
  matchesSdLower s.data || matchesNvme s.data

/-! ## Prompt loops

Every interactive validation loop in the sources has the shape

```
while True:
    value = input(...).strip()
    if valid(value): break
    print("...try again...")
```

modelled here over the (finite) list of lines the operator types: the loop
accepts the first line passing the validator and keeps prompting otherwise
(`none` = the operator has not yet supplied a valid value). -/
def firstAccepted (valid : String → Bool) : List String → Option String
  | [] => none
  | s :: rest => if valid s then some s else firstAccepted valid rest

/-- If a prompt loop terminates with an accepted value, that value passes the
validator: an invalid value is never accepted. -/
theorem firstAccepted_sound (valid : String → Bool) :
    ∀ (inputs : List String) (s : String),
      firstAccepted valid inputs = some s → valid s = true := by
  intro inputs
  induction inputs with
  | nil => intro s h; simp [firstAccepted] at h
  | cons a rest ih =>
    intro s h
    by_cases hv : valid a = true
    · simp [firstAccepted, hv] at h
      simpa [← h] using hv
    · simp [firstAccepted, hv] at h
      exact ih s h

/-! ## Drive selection and partition-path derivation -/

/-- Python whitespace stripped by `str.strip()` (ASCII part). -/
def isPySpace (c : Char) : Bool :=
  c = ' ' || c = '\t' || c = '\n' || c = '\r' || c = '\x0b' || c = '\x0c'

/-- Model of `str.strip()`: drop leading and trailing whitespace. -/
def pyStrip (l : List Char) : List Char :=
  ((l.dropWhile isPySpace).reverse.dropWhile isPySpace).reverse

/-- ASCII lowering, as applied by `str.lower()` to the characters at hand. -/
def pyLowerChar (c : Char) : Char :=
  if isUpperAlpha c then Char.ofNat (c.toNat + 32) else c

/-- Model of `input(...).strip().lower()` as applied to one typed line in the
drive-selection loop of `run_fdisk` (`src/New-V2/phases/fdisk_setup.py`
line 44). -/
def normalizeDriveInput (s : String) : String :=
  ⟨(pyStrip s.data).map pyLowerChar⟩

/-- The drive-selection loop of `run_fdisk` (lines 43–49): re-prompt until the
normalized line matches `sd[a-z]` or `nvme\d+n\d+`. -/
def acceptDrive : List String → Option String
  | [] => none
  | s :: rest =>
    let n := normalizeDriveInput s
    if validDriveName n then some n else acceptDrive rest

/-- Partition-path derivation of `run_fdisk`
(`src/New-V2/phases/fdisk_setup.py` lines 64–72): `disk_path = "/dev/" + name`;
bare numbers when `re.fullmatch("sd.", name)`, a `p` separator otherwise. -/
def derivePartitionPaths_newv2 (name : String) : String × String × String :=
  let disk_path := "/dev/" ++ name
  if matchesSdDot name.data then
    (disk_path ++ "1", disk_path ++ "2", disk_path ++ "3")
  else
    (disk_path ++ "p1", disk_path ++ "p2", disk_path ++ "p3")

/-- Model of `disk_base.startswith("nvme")` (`src/auto_partition.py` line 111). -/
def startsWithNvme (s : String) : Bool :=
  match s.data with
  | 'n' :: 'v' :: 'm' :: 'e' :: _ => true
  | _ => false

/-- Partition-path derivation of `auto_partition.py` `main` (lines 111–115):
the fork is on the `nvme` prefix, not on the trailing character. -/
def derivePartitionPaths_auto (disk_base : String) : String × String × String :=
  let disk_path := "/dev/" ++ disk_base
  if startsWithNvme disk_base then
    (disk_path ++ "p1", disk_path ++ "p2", disk_path ++ "p3")
  else
    (disk_path ++ "1", disk_path ++ "2", disk_path ++ "3")

/-- Does the identifier end in a (ASCII) digit?  This is the naming-convention
classification used by the specification (`NVMe-style` = ends in a digit). -/
def endsInDigit (s : String) : Bool :=
  match s.data.getLast? with
  | some c => isAsciiDigit c
  | none => false

/-! Supporting lemmas about the drive-name language. -/

theorem takeDigits_spec :
    ∀ (l ds r : List Char), takeDigits l = (ds, r) →
      ds.all isAsciiDigit = true ∧ l = ds ++ r := by
  intro l
  induction l with
  | nil =>
    intro ds r h
    simp [takeDigits] at h
    obtain ⟨h1, h2⟩ := h
    subst h1; subst h2
    simp
  | cons c rest ih =>
    intro ds r h
    rcases hp : takeDigits rest with ⟨ds', r'⟩
    by_cases hc : isAsciiDigit c = true
    · simp [takeDigits, hc, hp] at h
      obtain ⟨hih1, hih2⟩ := ih ds' r' hp
      obtain ⟨h1, h2⟩ := h
      subst h1; subst h2
      constructor
      · simp [hc]
        simpa using hih1
      · simp [← hih2]
    · simp [takeDigits, hc] at h
      obtain ⟨h1, h2⟩ := h
      subst h1; subst h2
      simp

/-- The last element of a list all of whose elements satisfy `P` satisfies
`P`. -/
theorem all_getLast? (P : Char → Bool) :
    ∀ (l : List Char) (c : Char), l.getLast? = some c → l.all P = true → P c = true := by
  intro l
  induction l with
  | nil => intro c h _; simp at h
  | cons x xs ih =>
    intro c h hall
    rw [List.all_cons, Bool.and_eq_true] at hall
    rcases xs with _ | ⟨y, ys⟩
    · simp at h
      rw [← h]
      exact hall.1
    · rw [List.getLast?_cons_cons] at h
      exact ih c h hall.2

/-- A name matching `nvme\d+n\d+` ends in a digit. -/
theorem matchesNvme_endsInDigit (s : String) (h : matchesNvme s.data = true) :
    endsInDigit s = true := by
  rcases hd : s.data with _ | ⟨a, l1⟩
  · rw [hd] at h; simp [matchesNvme] at h
  rcases l1 with _ | ⟨b, l2⟩
  · rw [hd] at h; simp [matchesNvme] at h
  rcases l2 with _ | ⟨c, l3⟩
  · rw [hd] at h; simp [matchesNvme] at h
  rcases l3 with _ | ⟨d, rest⟩
  · rw [hd] at h; simp [matchesNvme] at h
  rw [hd] at h
  simp only [matchesNvme, Bool.and_eq_true, decide_eq_true_eq] at h
  obtain ⟨⟨⟨⟨ha, hb⟩, hc⟩, hdd⟩, htail⟩ := h
  subst ha; subst hb; subst hc; subst hdd
  rcases h1 : takeDigits rest with ⟨ds1, r1⟩
  unfold nvmeTail at htail
  rw [h1] at htail
  rcases r1 with _ | ⟨e, r2⟩
  · simp at htail
  rcases h2 : takeDigits r2 with ⟨ds2, r3⟩
  simp only [h2, Bool.and_eq_true, decide_eq_true_eq, Bool.not_eq_true',
    List.isEmpty_eq_false, List.isEmpty_iff] at htail
  have he : e = 'n' := by tauto
  have hds2 : ds2 ≠ [] := by tauto
  have hr3 : r3 = [] := by tauto
  clear htail
  subst he
  subst hr3
  obtain ⟨hall2, heq2⟩ := takeDigits_spec r2 ds2 [] h2
  obtain ⟨_, heq1⟩ := takeDigits_spec rest ds1 ('n' :: r2) h1
  have hrest : rest = ds1 ++ 'n' :: ds2 := by
    rw [heq1, heq2, List.append_nil]
  have hds2ne : ds2 ≠ [] := by
    intro hn; rw [hn] at hds2; simp at hds2
  rcases ds2 with _ | ⟨z, zs⟩
  · exact absurd rfl hds2ne
  unfold endsInDigit
  rw [hd, hrest]
  have hshape :
      ('n' :: 'v' :: 'm' :: 'e' :: (ds1 ++ 'n' :: z :: zs) : List Char) =
        ('n' :: 'v' :: 'm' :: 'e' :: ds1) ++ ('n' :: z :: zs) := by
    simp
  rw [hshape, List.getLast?_append_cons, List.getLast?_cons_cons]
  rcases hlast : (z :: zs).getLast? with _ | w
  · simp at hlast
  · have hw : isAsciiDigit w = true :=
      all_getLast? isAsciiDigit (z :: zs) w hlast hall2
    simpa using hw

/-- A name matching `sd[a-z]` does not end in a digit, and matches `sd.`. -/
theorem matchesSdLower_props (s : String) (h : matchesSdLower s.data = true) :
    endsInDigit s = false ∧ matchesSdDot s.data = true := by
  rcases hd : s.data with _ | ⟨a, l1⟩
  · rw [hd] at h; simp [matchesSdLower] at h
  rcases l1 with _ | ⟨b, l2⟩
  · rw [hd] at h; simp [matchesSdLower] at h
  rcases l2 with _ | ⟨c, l3⟩
  · rw [hd] at h; simp [matchesSdLower] at h
  rcases l3 with _ | ⟨e, l4⟩
  swap
  · rw [hd] at h; simp [matchesSdLower] at h
  rw [hd] at h
  simp only [matchesSdLower, Bool.and_eq_true, decide_eq_true_eq] at h
  obtain ⟨⟨ha, hb⟩, hc⟩ := h
  subst ha; subst hb
  have hfalse : isAsciiDigit c = false := by
    cases hval : isAsciiDigit c
    · rfl
    · unfold isAsciiDigit at hval
      unfold isLowerAlpha at hc
      rw [Bool.and_eq_true, decide_eq_true_eq, decide_eq_true_eq] at hval hc
      exact absurd (le_trans hc.1 hval.2) (by decide)
  constructor
  · unfold endsInDigit
    rw [hd]
    simp only [List.getLast?_cons_cons, List.getLast?_singleton]
    exact hfalse
  · simp only [matchesSdDot, Bool.and_eq_true, decide_eq_true_eq]
    refine ⟨⟨trivial, trivial⟩, ?_⟩
    intro hx
    rw [hx] at hc
    exact absurd hc (by decide)

/-- Shape of the `sd[a-z]` language. -/
theorem matchesSdLower_shape (l : List Char) (h : matchesSdLower l = true) :
    ∃ c, isLowerAlpha c = true ∧ l = ['s', 'd', c] := by
  rcases l with _ | ⟨a, _ | ⟨b, _ | ⟨c, _ | ⟨e, l4⟩⟩⟩⟩
  · simp [matchesSdLower] at h
  · simp [matchesSdLower] at h
  · simp [matchesSdLower] at h
  · simp only [matchesSdLower, Bool.and_eq_true, decide_eq_true_eq] at h
    obtain ⟨⟨ha, hb⟩, hc⟩ := h
    subst ha; subst hb
    exact ⟨c, hc, rfl⟩
  · simp [matchesSdLower] at h

/-- Shape of the `nvme\d+n\d+` language: `nvme`, a nonempty digit run, `n`, a
nonempty digit run. -/
theorem matchesNvme_shape (l : List Char) (h : matchesNvme l = true) :
    ∃ ds1 ds2 : List Char, ds1.all isAsciiDigit = true ∧ ds2.all isAsciiDigit = true ∧
      ds1 ≠ [] ∧ ds2 ≠ [] ∧ l = 'n' :: 'v' :: 'm' :: 'e' :: (ds1 ++ 'n' :: ds2) := by
  rcases l with _ | ⟨a, _ | ⟨b, _ | ⟨c, _ | ⟨d, rest⟩⟩⟩⟩
  · simp [matchesNvme] at h
  · simp [matchesNvme] at h
  · simp [matchesNvme] at h
  · simp [matchesNvme] at h
  simp only [matchesNvme, Bool.and_eq_true, decide_eq_true_eq] at h
  obtain ⟨⟨⟨⟨ha, hb⟩, hc⟩, hdd⟩, htail⟩ := h
  subst ha; subst hb; subst hc; subst hdd
  rcases h1 : takeDigits rest with ⟨ds1, r1⟩
  unfold nvmeTail at htail
  rw [h1] at htail
  rcases r1 with _ | ⟨e, r2⟩
  · simp at htail
  rcases h2 : takeDigits r2 with ⟨ds2, r3⟩
  simp only [h2, Bool.and_eq_true, decide_eq_true_eq, Bool.not_eq_true',
    List.isEmpty_eq_false, List.isEmpty_iff] at htail
  have hds1 : ds1 ≠ [] := by tauto
  have he : e = 'n' := by tauto
  have hds2 : ds2 ≠ [] := by tauto
  have hr3 : r3 = [] := by tauto
  clear htail
  subst he; subst hr3
  obtain ⟨hall2, heq2⟩ := takeDigits_spec r2 ds2 [] h2
  obtain ⟨hall1, heq1⟩ := takeDigits_spec rest ds1 ('n' :: r2) h1
  refine ⟨ds1, ds2, hall1, hall2, hds1, hds2, ?_⟩
  rw [heq1, heq2, List.append_nil]

/-- Digits are alphanumeric. -/
theorem all_digit_alnum (l : List Char) (h : l.all isAsciiDigit = true) :
    l.all isAlnum = true := by
  rw [List.all_eq_true] at h ⊢
  intro c hc
  have hd := h c hc
  simp only [isAlnum, Bool.or_eq_true]
  right
  simpa using hd

/-- Every accepted drive name is purely alphanumeric — in particular it
contains no path separator and no leading dash. -/
theorem validDriveName_alnum (name : String) (h : validDriveName name = true) :
    name.data.all isAlnum = true := by
  unfold validDriveName at h
  rw [Bool.or_eq_true] at h
  rcases h with h | h
  · obtain ⟨c, hc, hshape⟩ := matchesSdLower_shape name.data h
    rw [hshape, List.all_eq_true]
    intro x hx
    simp at hx
    rcases hx with rfl | rfl | rfl
    · decide
    · decide
    · simp [isAlnum, hc]
  · obtain ⟨ds1, ds2, hall1, hall2, _, _, hshape⟩ := matchesNvme_shape name.data h
    rw [hshape]
    simp only [List.all_cons, List.all_append, Bool.and_eq_true]
    refine ⟨by decide, by decide, by decide, by decide, all_digit_alnum ds1 hall1,
      by decide, all_digit_alnum ds2 hall2⟩

/-- A name matching `nvme\d+n\d+` has length at least 7, hence never matches
`sd.` (length exactly 3). -/
theorem matchesNvme_not_sdDot (s : String) (h : matchesNvme s.data = true) :
    matchesSdDot s.data = false := by
  rcases hd : s.data with _ | ⟨a, l1⟩
  · rfl
  rcases l1 with _ | ⟨b, l2⟩
  · rw [hd] at h; simp [matchesNvme] at h
  rcases l2 with _ | ⟨c, l3⟩
  · rw [hd] at h; simp [matchesNvme] at h
  rcases l3 with _ | ⟨d, rest⟩
  · rw [hd] at h; simp [matchesNvme] at h
  rfl

/-- The destructive command sequence of `run_fdisk`
(`src/New-V2/phases/fdisk_setup.py`, line 59 and lines 74–91), as a function of
the accepted drive name: partitioning (fdisk fed with the GPT template),
filesystem creation, swap activation, subvolume setup, and mounts. -/
def run_fdisk_destructive_cmds (name : String) : List (List String) :=
  let disk_path := "/dev/" ++ name
  let parts := derivePartitionPaths_newv2 name
  [ ["fdisk", disk_path],
    ["mkfs.fat", "-F32", parts.1],
    ["mkswap", parts.2.1],
    ["swapon", parts.2.1],
    ["mkfs.btrfs", parts.2.2],
    ["mount", parts.2.2, "/mnt"],
    ["btrfs", "subvolume", "create", "/mnt/@"],
    ["btrfs", "subvolume", "create", "/mnt/@home"],
    ["btrfs", "subvolume", "create", "/mnt/@var"],
    ["btrfs", "subvolume", "create", "/mnt/@snapshots"],
    ["umount", "/mnt"],
    ["mount", "-o", "noatime,compress=lzo,space_cache=v2,subvol=@", parts.2.2, "/mnt"],
    ["mkdir", "-p", "/mnt/boot", "/mnt/var", "/mnt/home", "/mnt/.snapshots"],
    ["mount", "-o", "noatime,compress=lzo,space_cache=v2,subvol=@home", parts.2.2, "/mnt/home"],
    ["mount", "-o", "noatime,compress=lzo,space_cache=v2,subvol=@var", parts.2.2, "/mnt/var"],
    ["mount", "-o", "noatime,compress=lzo,space_cache=v2,subvol=@snapshots", parts.2.2, "/mnt/.snapshots"],
    ["mount", parts.1, "/mnt/boot"] ]

/-- Arguments of the form `/dev/…`: the device-path arguments. -/
def isDevArg (arg : String) : Bool :=
  ("/dev/" : String).data.isPrefixOf arg.data

/-- Appending alphanumeric text to `/dev/` stays alphanumeric after the
prefix. -/
theorem devPathOk (name suffix : String) (hn : name.data.all isAlnum = true)
    (hs : suffix.data.all isAlnum = true) :
    ((("/dev/" ++ name ++ suffix : String).data).drop 5).all isAlnum = true := by
  have h5 : ("/dev/" : String).data.length = 5 := rfl
  rw [String.data_append, String.data_append, List.append_assoc, ← h5,
    List.drop_left, List.all_append]
  rw [hn, hs]
  rfl

/-- Same, for a bare `/dev/<name>` path. -/
theorem devPathOk0 (name : String) (hn : name.data.all isAlnum = true) :
    ((("/dev/" ++ name : String).data).drop 5).all isAlnum = true := by
  have h5 : ("/dev/" : String).data.length = 5 := rfl
  rw [String.data_append, ← h5, List.drop_left]
  exact hn

/-- The drive-selection loop only ever hands a name matching the gate to the
rest of `run_fdisk`. -/
theorem acceptDrive_sound :
    ∀ (inputs : List String) (name : String),
      acceptDrive inputs = some name → validDriveName name = true := by
  intro inputs
  induction inputs with
  | nil => intro name h; simp [acceptDrive] at h
  | cons a rest ih =>
    intro name h
    by_cases hv : validDriveName (normalizeDriveInput a) = true
    · simp [acceptDrive, hv] at h
      rw [← h]; exact hv
    · simp [acceptDrive, hv] at h
      exact ih name h

/-- Claim C10:  The disk-selection loop of `run_fdisk` re-prompts until the
entered drive name matches `sd[a-z]` or `nvme\d+n\d+`; consequently every
`/dev/…` device argument handed to the destructive partition / format / swap /
mount commands is `/dev/` followed by purely alphanumeric text derived from a
name in that language — arbitrary user-supplied text (path separators,
option-like strings) never reaches a destructive command as the device
argument. -/
theorem c10_drive_gate (inputs : List String) (name : String)
    (h : acceptDrive inputs = some name) :
    validDriveName name = true ∧
      ∀ cmd ∈ run_fdisk_destructive_cmds name, ∀ arg ∈ cmd,
        isDevArg arg = true → (arg.data.drop 5).all isAlnum = true := by
  have hv : validDriveName name = true := acceptDrive_sound inputs name h
  have hn : name.data.all isAlnum = true := validDriveName_alnum name hv
  refine ⟨hv, ?_⟩
  intro cmd hmem arg harg hdev
  by_cases hsd : matchesSdDot name.data = true
  · have hparts : derivePartitionPaths_newv2 name =
        ("/dev/" ++ name ++ "1", "/dev/" ++ name ++ "2", "/dev/" ++ name ++ "3") := by
      simp [derivePartitionPaths_newv2, hsd]
    simp only [run_fdisk_destructive_cmds, hparts] at hmem
    fin_cases hmem <;> fin_cases harg <;>
      first
        | exact absurd hdev (by decide)
        | exact devPathOk0 name hn
        | exact devPathOk name _ hn (by decide)
  · have hparts : derivePartitionPaths_newv2 name =
        ("/dev/" ++ name ++ "p1", "/dev/" ++ name ++ "p2", "/dev/" ++ name ++ "p3") := by
      simp [derivePartitionPaths_newv2, hsd]
    simp only [run_fdisk_destructive_cmds, hparts] at hmem
    fin_cases hmem <;> fin_cases harg <;>
      first
        | exact absurd hdev (by decide)
        | exact devPathOk0 name hn
        | exact devPathOk name _ hn (by decide)

/-- Witness for `c10_drive_gate` at the concrete input `sda`. -/
theorem c10_drive_gate_witness :
    acceptDrive ["sda"] = some "sda" ∧
      (validDriveName "sda" = true ∧
        ∀ cmd ∈ run_fdisk_destructive_cmds "sda", ∀ arg ∈ cmd,
          isDevArg arg = true → (arg.data.drop 5).all isAlnum = true) :=
  ⟨by decide, c10_drive_gate ["sda"] "sda" (by decide)⟩

/-- Claim C4, amended:  For every drive name accepted by `run_fdisk`'s
validation loop, the derived partition paths follow the ends-in-a-digit rule:
names matching `nvme\d+n\d+` end in a digit and get the `p` separator, names
matching `sd[a-z]` do not end in a digit and get bare numbers.  (The
`auto_partition.py` derivation instead forks on the `nvme` prefix; see
`c4_auto_partition_counterexample`.) -/
theorem c4_partition_paths (name : String) (h : validDriveName name = true) :
    derivePartitionPaths_newv2 name =
      (if endsInDigit name then
        ("/dev/" ++ name ++ "p1", "/dev/" ++ name ++ "p2", "/dev/" ++ name ++ "p3")
      else
        ("/dev/" ++ name ++ "1", "/dev/" ++ name ++ "2", "/dev/" ++ name ++ "3")) := by
  unfold validDriveName at h
  rw [Bool.or_eq_true] at h
  rcases h with h | h
  · obtain ⟨hend, hdot⟩ := matchesSdLower_props name h
    simp [derivePartitionPaths_newv2, hdot, hend]
  · have hend := matchesNvme_endsInDigit name h
    have hdot := matchesNvme_not_sdDot name h
    simp [derivePartitionPaths_newv2, hdot, hend]

/-- Witness for `c4_partition_paths` at the spec's own examples `nvme0n1`
and `sda`. -/
theorem c4_partition_paths_witness :
    (validDriveName "nvme0n1" = true ∧
      derivePartitionPaths_newv2 "nvme0n1" =
        (if endsInDigit "nvme0n1" then
          ("/dev/" ++ "nvme0n1" ++ "p1", "/dev/" ++ "nvme0n1" ++ "p2",
            "/dev/" ++ "nvme0n1" ++ "p3")
        else
          ("/dev/" ++ "nvme0n1" ++ "1", "/dev/" ++ "nvme0n1" ++ "2",
            "/dev/" ++ "nvme0n1" ++ "3"))) ∧
    (validDriveName "sda" = true ∧
      derivePartitionPaths_newv2 "sda" =
        (if endsInDigit "sda" then
          ("/dev/" ++ "sda" ++ "p1", "/dev/" ++ "sda" ++ "p2", "/dev/" ++ "sda" ++ "p3")
        else
          ("/dev/" ++ "sda" ++ "1", "/dev/" ++ "sda" ++ "2", "/dev/" ++ "sda" ++ "3"))) :=
  ⟨⟨by decide, c4_partition_paths "nvme0n1" (by decide)⟩,
   ⟨by decide, c4_partition_paths "sda" (by decide)⟩⟩

/-- Claim C4, counterexample:  `auto_partition.py` accepts the identifier
`mmcblk0` (alphanumeric), which ends in a digit, yet derives bare partition
numbers `/dev/mmcblk01 …` instead of the claimed `p`-separated
`/dev/mmcblk0p1 …`: the claimed ends-in-a-digit rule is false for the
`auto_partition.py` derivation. -/
theorem c4_auto_partition_counterexample :
    validate_disk_name "mmcblk0" = true ∧ endsInDigit "mmcblk0" = true ∧
      derivePartitionPaths_auto "mmcblk0" =
        ("/dev/mmcblk01", "/dev/mmcblk02", "/dev/mmcblk03") ∧
      ("/dev/mmcblk01" : String) ≠ "/dev/mmcblk0p1" := by
  refine ⟨by decide, by decide, ?_, by decide⟩
  decide

/-! ## Validator bounds (claim C8) -/

/-- Does the string start with a lowercase letter or an underscore?  (The
necessary first-character condition of both username patterns.) -/
def startsLowerOrUnderscore (s : String) : Bool :=
  match s.data with
  | c :: _ => isLowerAlpha c || c = '_'
  | [] => false

theorem matchesUsernameRe_starts (s : String) (h : matchesUsernameRe s.data = true) :
    startsLowerOrUnderscore s = true := by
  unfold startsLowerOrUnderscore
  rcases hd : s.data with _ | ⟨c, rest⟩
  · rw [hd] at h; simp [matchesUsernameRe] at h
  · rw [hd] at h
    simp only [matchesUsernameRe, Bool.and_eq_true] at h
    exact h.1

theorem matchesUsernameRe_ne_nil (s : String) (h : matchesUsernameRe s.data = true) :
    1 ≤ s.data.length := by
  rcases hd : s.data with _ | ⟨c, rest⟩
  · rw [hd] at h; simp [matchesUsernameRe] at h
  · simp

theorem matchesHostnameRePhases_length (s : String)
    (h : matchesHostnameRePhases s.data = true) :
    1 ≤ s.data.length ∧ s.data.length ≤ 63 := by
  rcases hd : s.data with _ | ⟨c, rest⟩
  · rw [hd] at h; simp [matchesHostnameRePhases] at h
  · rw [hd] at h
    simp only [matchesHostnameRePhases, Bool.and_eq_true, Bool.or_eq_true,
      decide_eq_true_eq] at h
    obtain ⟨-, h2⟩ := h
    rcases h2 with h2 | h2
    · have hrest : rest = [] := by simpa using h2
      subst hrest
      simp
    · have hne : rest ≠ [] := by
        intro hnil
        rw [hnil] at h2
        simp at h2
      have hlen : rest.dropLast.length ≤ 61 := by tauto
      have hdl : rest.dropLast.length = rest.length - 1 := List.length_dropLast rest
      have hpos : 1 ≤ rest.length := by
        rcases rest with _ | ⟨x, xs⟩
        · exact absurd rfl hne
        · simp
      constructor
      · simp
      · simp only [List.length_cons]
        omega

/-- Claim C8, amended:  The V2 validators accept a username only if it is
3–32 characters starting with a lowercase letter or underscore, and a hostname
only if it is a 2–63-character label; the `Phases/user_input.py` validators
impose no such minimum — they accept usernames of 1–32 characters (same
first-character rule) and hostname labels of 1–63 characters.  In all cases
the interactive prompt loop only ever returns a value passing its validator,
so an invalid value is never accepted into the configuration. -/
theorem c8_validator_bounds :
    (∀ s : String, validate_username_v2 s = true →
      3 ≤ s.data.length ∧ s.data.length ≤ 32 ∧ startsLowerOrUnderscore s = true) ∧
    (∀ s : String, valid_username_phases s = true →
      1 ≤ s.data.length ∧ s.data.length ≤ 32 ∧ startsLowerOrUnderscore s = true) ∧
    (∀ s : String, validate_hostname_v2 s = true →
      2 ≤ s.data.length ∧ s.data.length ≤ 63) ∧
    (∀ s : String, valid_hostname_phases s = true →
      1 ≤ s.data.length ∧ s.data.length ≤ 63) ∧
    (∀ (valid : String → Bool) (inputs : List String) (s : String),
      firstAccepted valid inputs = some s → valid s = true) := by
  refine ⟨?_, ?_, ?_, ?_, ?_⟩
  · intro s h
    unfold validate_username_v2 at h
    simp only [Bool.and_eq_true, decide_eq_true_eq] at h
    exact ⟨h.1.2, h.2, matchesUsernameRe_starts s h.1.1⟩
  · intro s h
    unfold valid_username_phases at h
    simp only [Bool.and_eq_true, decide_eq_true_eq] at h
    exact ⟨matchesUsernameRe_ne_nil s h.1, h.2, matchesUsernameRe_starts s h.1⟩
  · intro s h
    unfold validate_hostname_v2 at h
    simp only [Bool.and_eq_true, decide_eq_true_eq] at h
    exact ⟨h.1.2, h.2⟩
  · intro s h
    exact matchesHostnameRePhases_length s h
  · exact firstAccepted_sound

/-- Witness for `c8_validator_bounds` at concrete inputs. -/
theorem c8_validator_bounds_witness :
    (3 ≤ ("bob" : String).data.length ∧ ("bob" : String).data.length ≤ 32 ∧
      startsLowerOrUnderscore "bob" = true) ∧
    (1 ≤ ("ab" : String).data.length ∧ ("ab" : String).data.length ≤ 32 ∧
      startsLowerOrUnderscore "ab" = true) ∧
    (2 ≤ ("pc" : String).data.length ∧ ("pc" : String).data.length ≤ 63) ∧
    (1 ≤ ("a" : String).data.length ∧ ("a" : String).data.length ≤ 63) ∧
    validate_username_v2 "bob" = true :=
  ⟨c8_validator_bounds.1 "bob" (by decide),
   c8_validator_bounds.2.1 "ab" (by decide),
   c8_validator_bounds.2.2.1 "pc" (by decide),
   c8_validator_bounds.2.2.2.1 "a" (by decide),
   c8_validator_bounds.2.2.2.2 validate_username_v2 ["bob"] "bob" (by decide)⟩

/-- Claim C8, counterexample:  The `Phases/user_input.py` validators accept the
2-character username `ab` and the 1-character hostname `a`, contradicting the
claimed 3–32 / 2–63 bounds. -/
theorem c8_validators_counterexample :
    valid_username_phases "ab" = true ∧ ("ab" : String).data.length = 2 ∧
      valid_hostname_phases "a" = true ∧ ("a" : String).data.length = 1 := by
  decide

/-! ## Second-stage (chroot) script generators (claim C2)

The f-strings of `src/arch_install_v1.py` (lines 116–150) and
`src/Phases/base_install.py` (lines 32–97) are transcribed as the literal
segments between the interpolation holes; `\x27` is an ASCII apostrophe and
`\t` a tab, as in the sources. -/

def v1s1 : String := "#!/usr/bin/env bash\n\nln -sf /usr/share/zoneinfo/"

def v1s2 : String := " /etc/localtime\nhwclock --systohc\nsed -i \x27s/^#en_US.UTF-8 UTF-8/en_US.UTF-8 UTF-8/\x27 /etc/locale.gen\nlocale-gen\necho \"LANG=en_US.UTF-8\" >> /etc/locale.conf\necho \"ArchMachine\" >> /etc/hostname\necho root:"

def v1s3 : String := " | chpasswd\n\ncat <<EOF > /etc/hosts\n127.0.0.1 localhost\n::1       localhost\n127.0.1.1\t"

def v1s4 : String := ".localdomain\t"

def v1s5 : String := "\nEOF\n\npacman -S mtools libva-mesa-driver vulkan-nouveau cmake docker xf86-video-nouveau xorg-server xorg-xinit yt-dlp python3 fastfetch whois zsh mesa-utils git dosfstools man less xclip linux-headers reflector hyprland sddm kitty kate 7zip firefox btop vlc smplayer unrar pipewire pipewire-alsa dolphin pipewire-pulse --noconfirm --needed\nsystemctl enable sddm\nsystemctl enable NetworkManager\nsystemctl enable snapper-timeline.timer\nsystemctl enable snapper-cleanup.timer\nsystemctl enable grub-btrfsd.service\n\nuseradd -m -G wheel,storage,power,audio,video "

def v1s6 : String := "\nsed -i \x27s/^# %wheel ALL=(ALL:ALL) ALL/%wheel ALL=(ALL:ALL) ALL/\x27 /etc/sudoers\necho "

def v1s7 : String := " | chpasswd\n\ngrub-install --target=x86_64-efi --efi-directory=/boot --bootloader-id=GRUB\ngrub-mkconfig -o /boot/grub/grub.cfg\n\necho \"-------------------------------------------------\"\necho \"Install Complete, You can reboot now\"\necho \"-------------------------------------------------\"\n"

/-- The second-stage script generated by `arch_install_v1.py` `main`
(lines 116–150): both passwords are interpolated into the script text
(`echo root:{root_pass} | chpasswd` and `echo {username}:{user_pass} | chpasswd`). -/
def chroot_script_v1 (username host_name user_pass root_pass timezone : String) : String :=
  v1s1 ++ timezone ++ v1s2 ++ root_pass ++ v1s3 ++ host_name ++ v1s4 ++ host_name ++
    v1s5 ++ username ++ v1s6 ++ username ++ ":" ++ user_pass ++ v1s7

def ps1 : String := "#!/usr/bin/env bash\n\nset -euo pipefail\n\nln -sf /usr/share/zoneinfo/"

def ps2 : String := " /etc/localtime\nhwclock --systohc\nsed -i \x27s/^#en_US.UTF-8 UTF-8/en_US.UTF-8 UTF-8/\x27 /etc/locale.gen\nlocale-gen\necho \"LANG=en_US.UTF-8\" >> /etc/locale.conf\necho \""

def ps3 : String := "\" >> /etc/hostname\n# Note: root password is set after this script runs to avoid storing it on disk.\n\ncat <<EOF > /etc/hosts\n127.0.0.1 localhost\n::1       localhost\n127.0.1.1\t"

def ps4 : String := ".localdomain\t"

def ps5 : String := "\nEOF\n\npacman -S mtools cmake docker yt-dlp python fastfetch whois zsh git dosfstools man less xclip linux-headers reflector hyprland sddm kitty kate p7zip firefox btop vlc smplayer unrar pipewire pipewire-alsa dolphin pipewire-pulse --noconfirm --needed\n\n# Detect CPU vendor and install only the relevant microcode package.\n# This avoids installing both intel-ucode and amd-ucode unnecessarily.\nif grep -qi \x27GenuineIntel\x27 /proc/cpuinfo; then\n  pacman -S intel-ucode --noconfirm --needed\nelif grep -qi \x27AuthenticAMD\x27 /proc/cpuinfo; then\n  pacman -S amd-ucode --noconfirm --needed\nelse\n  echo \"Warning: Unknown CPU vendor; skipping microcode installation.\"\nfi\n\ngpu=\""

def ps6 : String := "\"\ncase \"$gpu\" in\n  0)\n    # Mesa drivers\n    pacman -S libva-mesa-driver vulkan-nouveau xf86-video-nouveau xorg-server xorg-xinit mesa-utils mesa --noconfirm --needed ;;\n  1)\n    # New open kernel Nvidia\n    pacman -S dkms libva-nvidia-driver nvidia-open-dkms xorg-server xorg-xinit --noconfirm --needed ;;\n  2)\n    # Proprietary Nvidia\n    pacman -S dkms libva-nvidia-driver nvidia-dkms xorg-server xorg-xinit --noconfirm --needed ;;\n  3)\n    # Intel\n    pacman -S intel-media-driver libva-intel-driver mesa vulkan-intel xorg-server xorg-xinit --noconfirm --needed ;;\n  4)\n    # VirtualBox\n    pacman -S mesa xorg-server xorg-xinit --noconfirm --needed ;;\n  *)\n    echo \"No GPU driver was installed.\" ;;\nesac\nsystemctl enable sddm\nsystemctl enable NetworkManager\nsystemctl enable snapper-timeline.timer\nsystemctl enable snapper-cleanup.timer\nsystemctl enable grub-btrfsd.service\nsystemctl enable docker\n\nuseradd -m -G wheel,storage,power,audio,video,docker "

def ps7 : String := "\nsed -i \x27s/^# %wheel ALL=(ALL:ALL) ALL/%wheel ALL=(ALL:ALL) ALL/\x27 /etc/sudoers\n# Note: user password is set after this script runs to avoid storing it on disk.\n\ngrub-install --target=x86_64-efi --efi-directory=/boot --bootloader-id=GRUB\ngrub-mkconfig -o /boot/grub/grub.cfg\n\n    "

/-- The second-stage script generated by `chroot_config`
(`src/Phases/base_install.py` lines 32–97).  The f-string interpolates
`timezone`, `host_name` (three times), `gpu` and `username` — and neither
password. -/
def chroot_script_phases (username host_name timezone gpu : String) : String :=
  ps1 ++ timezone ++ ps2 ++ host_name ++ ps3 ++ host_name ++ ps4 ++ host_name ++
    ps5 ++ gpu ++ ps6 ++ username ++ ps7

/-- An external invocation: argv plus optional text fed to stdin. -/
structure Invocation where
  argv : List String
  stdinText : Option String
deriving DecidableEq

/-- Model of `chroot_config` (`src/Phases/base_install.py` lines 31–111): write the
generated script, execute it inside the chroot, then apply both passwords via
`chpasswd -e` fed hashed values on stdin, and delete the script.  `hashFn`
stands for `crypt.crypt(·, crypt.mksalt(crypt.METHOD_SHA512))`. -/
def chroot_config_phases (username host_name user_pass root_pass timezone gpu : String)
    (hashFn : String → String) : String × List Invocation :=
  (chroot_script_phases username host_name timezone gpu,
    [ ⟨["arch-chroot", "/mnt", "bash", "/chroot.sh"], none⟩,
      ⟨["arch-chroot", "/mnt", "chpasswd", "-e"], some ("root:" ++ hashFn root_pass ++ "\n")⟩,
      ⟨["arch-chroot", "/mnt", "chpasswd", "-e"],
        some (username ++ ":" ++ hashFn user_pass ++ "\n")⟩,
      ⟨["rm", "-f", "/mnt/chroot.sh"], none⟩ ])

/-- Claim C2, amended:  The `Phases/base_install.py` second-stage script text
does not depend on the passwords at all — any two password choices yield the
same script text, so a password sentinel can never appear in it via the
credentials; the legacy `arch_install_v1.py` generator, by contrast, embeds
both the root and the user password verbatim in the script text. -/
theorem c2_script_secrets :
    (∀ (username host_name user_pass root_pass user_pass2 root_pass2 timezone gpu : String)
        (hashFn : String → String),
      (chroot_config_phases username host_name user_pass root_pass timezone gpu hashFn).1 =
        (chroot_config_phases username host_name user_pass2 root_pass2 timezone gpu hashFn).1) ∧
    (∀ username host_name user_pass root_pass timezone : String,
      List.IsInfix root_pass.data
          (chroot_script_v1 username host_name user_pass root_pass timezone).data ∧
        List.IsInfix user_pass.data
          (chroot_script_v1 username host_name user_pass root_pass timezone).data) := by
  constructor
  · intro username host_name up rp up2 rp2 timezone gpu hashFn
    rfl
  · intro u h up rp tz
    constructor
    · refine ⟨(v1s1 ++ tz ++ v1s2).data,
        (v1s3 ++ h ++ v1s4 ++ h ++ v1s5 ++ u ++ v1s6 ++ u ++ ":" ++ up ++ v1s7).data, ?_⟩
      simp [chroot_script_v1, String.data_append, List.append_assoc]
    · refine ⟨(v1s1 ++ tz ++ v1s2 ++ rp ++ v1s3 ++ h ++ v1s4 ++ h ++ v1s5 ++ u ++ v1s6 ++
        u ++ ":").data, v1s7.data, ?_⟩
      simp [chroot_script_v1, String.data_append, List.append_assoc]

/-- Claim C2, counterexample:  With root password `S3CRETPW`, the script
generated by `arch_install_v1.py` contains `S3CRETPW` as a substring: the
claim that the generated script text never contains the credential values is
false for this generator. -/
theorem c2_plaintext_counterexample :
    List.IsInfix ("S3CRETPW" : String).data
      (chroot_script_v1 "bob" "myhost" "hunter2" "S3CRETPW" "UTC").data := by
  refine ⟨(v1s1 ++ "UTC" ++ v1s2).data,
    (v1s3 ++ "myhost" ++ v1s4 ++ "myhost" ++ v1s5 ++ "bob" ++ v1s6 ++ "bob" ++ ":" ++
      "hunter2" ++ v1s7).data, ?_⟩
  simp [chroot_script_v1, String.data_append, List.append_assoc]

/-! ## Filesystem-table persistence (claim C5)

The target filesystem is modelled as a partial map from paths to file
contents. -/

/-- Model of `write_file` / `Path.write_text` (`src/Phases/liberary.py` lines 55–63):
replaces the contents of `path`. -/
def write_text (fs : String → Option String) (path content : String) :
    String → Option String :=
  fun p => if p = path then some content else fs p

/-- The fstab step of `base_install` (`src/Phases/base_install.py`
lines 27–29): capture the `genfstab -U /mnt` output and write it to
`/mnt/etc/fstab` with `write_file` (overwrite). -/
def fstab_step_phases (fs : String → Option String) (genOut : String) :
    String → Option String :=
  write_text fs "/mnt/etc/fstab" genOut

/-- The fstab step of `arch_install_v1.py` (lines 111–113):
`open("/mnt/etc/fstab", "a")` — the `genfstab` output is appended to whatever
the file already holds. -/
def fstab_step_v1 (fs : String → Option String) (genOut : String) :
    String → Option String :=
  fun p =>
    if p = "/mnt/etc/fstab" then some (((fs "/mnt/etc/fstab").getD "") ++ genOut)
    else fs p

/-- Claim C5, amended:  The `Phases/base_install.py` fstab step overwrites
`/mnt/etc/fstab` with exactly the captured generator output, is idempotent
across retries, and leaves every other path untouched; the legacy
`arch_install_v1.py` step instead appends the output to the existing
contents. -/
theorem c5_fstab_overwrite :
    (∀ (fs : String → Option String) (genOut : String),
      fstab_step_phases fs genOut "/mnt/etc/fstab" = some genOut) ∧
    (∀ (fs : String → Option String) (genOut : String),
      fstab_step_phases (fstab_step_phases fs genOut) genOut = fstab_step_phases fs genOut) ∧
    (∀ (fs : String → Option String) (genOut p : String), p ≠ "/mnt/etc/fstab" →
      fstab_step_phases fs genOut p = fs p) ∧
    (∀ (fs : String → Option String) (genOut : String),
      fstab_step_v1 fs genOut "/mnt/etc/fstab" =
        some (((fs "/mnt/etc/fstab").getD "") ++ genOut)) := by
  refine ⟨?_, ?_, ?_, ?_⟩
  · intro fs genOut
    simp [fstab_step_phases, write_text]
  · intro fs genOut
    funext p
    by_cases hp : p = "/mnt/etc/fstab" <;> simp [fstab_step_phases, write_text, hp]
  · intro fs genOut p hp
    simp [fstab_step_phases, write_text, hp]
  · intro fs genOut
    simp [fstab_step_v1]

/-- Witness for `c5_fstab_overwrite` at a concrete filesystem state. -/
theorem c5_fstab_overwrite_witness :
    fstab_step_phases (fun _ => none) "UUID=1 / btrfs rw 0 0\n" "/boot/grub/grub.cfg" =
      (fun _ => (none : Option String)) "/boot/grub/grub.cfg" :=
  c5_fstab_overwrite.2.2.1 (fun _ => none) "UUID=1 / btrfs rw 0 0\n" "/boot/grub/grub.cfg"
    (by decide)

/-- Claim C5, counterexample:  Running the `arch_install_v1.py` fstab step
twice duplicates the entries: the file ends up holding the generator output
twice, so the claimed always-overwrite behaviour is false for that step. -/
theorem c5_append_counterexample :
    (fstab_step_v1 (fstab_step_v1 (fun _ => none) "UUID=1 / btrfs rw 0 0\n")
        "UUID=1 / btrfs rw 0 0\n") "/mnt/etc/fstab" =
      some "UUID=1 / btrfs rw 0 0\nUUID=1 / btrfs rw 0 0\n" ∧
    some "UUID=1 / btrfs rw 0 0\nUUID=1 / btrfs rw 0 0\n" ≠
      some "UUID=1 / btrfs rw 0 0\n" := by
  constructor
  · decide
  · decide

/-! ## Command executors (claims C6, C7) -/

/-- Behaviour of the attempted child process: the binary is missing, or a
process ran and exited with a status, stdout and stderr. -/
inductive ChildBehavior
  | notFound
  | ran (exitCode : Nat) (stdout : String) (stderr : String)
deriving DecidableEq

/-- What the rest of the program observes of an executor call. -/
inductive PhasesExecResult
  | returned (out : Option String)
  | processExit (code : Nat)
  | raisedException
deriving DecidableEq

/-- Model of `run_command(command, capture_output=…, input_text=…)` of
`src/Phases/liberary.py` (lines 8–42), paired with the number of external
processes spawned.  A zero exit returns normally (stdout when capturing); a
non-zero exit prints the command, exit code and captured output and then
terminates the whole installer via `sys.exit(error.returncode)`;
`FileNotFoundError` is not handled there and propagates (no process was
spawned). -/
def run_command_phases (captureOutput : Bool) (child : ChildBehavior) :
    PhasesExecResult × Nat :=
  match child with
  | .notFound => (.raisedException, 0)
  | .ran code out _ =>
    if code = 0 then (.returned (if captureOutput then some out else none), 1)
    else (.processExit code, 1)

/-- Model of `run_command` of `src/New-V2/phases/library.py` (lines 7–27): a missing
command exits 127; a non-zero exit terminates with the child's own exit
code. -/
def run_command_newv2 (child : ChildBehavior) : PhasesExecResult :=
  match child with
  | .notFound => .processExit 127
  | .ran code _ _ => if code = 0 then .returned none else .processExit code

/-- What a call to the V2 executor produces. -/
inductive V2ExecResult
  | ok (out : Option String)
  | installErrorNotFound (cmd0 : String) (attempts : Nat)
  | installErrorFailed (cmd : List String) (exitCode : Nat) (output : String) (attempts : Nat)
  | raisedAttributeError
deriving DecidableEq

/-- Retry loop of `run_command` in `src/Arch-Install-V2.py` (lines 193–216),
by remaining retries (`fuel`; the source default is `retries = 2`).
`childOf n` is the behaviour of the process spawned at attempt `n`,
`retryAnswer n` the operator's answer to the `retry_prompt` at attempt `n`.
In capture mode a failing child with non-empty stderr hits
`error.stderr.decode()` on a `str` and raises `AttributeError`; otherwise the
diagnostic output is the literal `No output` (stderr is `None` without
capture, and falsy when empty).  The second component counts spawned
processes (a `FileNotFoundError` attempt spawns none). -/
def run_command_v2_go (cmd : List String) (capture : Bool) (childOf : Nat → ChildBehavior)
    (retryAnswer : Nat → Bool) : Nat → Nat → V2ExecResult × Nat
  | attempt, 0 =>
    match childOf attempt with
    | .notFound => (.installErrorNotFound (cmd.headD "") (attempt + 1), 0)
    | .ran code out err =>
      if code = 0 then (.ok (if capture then some out else none), 1)
      else if capture && err ≠ "" then (.raisedAttributeError, 1)
      else (.installErrorFailed cmd code "No output" (attempt + 1), 1)
  | attempt, fuel + 1 =>
    match childOf attempt with
    | .notFound =>
      if retryAnswer attempt then
        run_command_v2_go cmd capture childOf retryAnswer (attempt + 1) fuel
      else (.installErrorNotFound (cmd.headD "") (attempt + 1), 0)
    | .ran code out err =>
      if code = 0 then (.ok (if capture then some out else none), 1)
      else if capture && err ≠ "" then (.raisedAttributeError, 1)
      else if retryAnswer attempt then
        let r := run_command_v2_go cmd capture childOf retryAnswer (attempt + 1) fuel
        (r.1, r.2 + 1)
      else (.installErrorFailed cmd code "No output" (attempt + 1), 1)

/-- Model of `run_command` of `src/Arch-Install-V2.py` with its default `retries = 2`. -/
def run_command_v2 (cmd : List String) (capture : Bool) (childOf : Nat → ChildBehavior)
    (retryAnswer : Nat → Bool) : V2ExecResult × Nat :=
  run_command_v2_go cmd capture childOf retryAnswer 0 2

/-- The V2 retry loop spawns at most `fuel + 1` processes. -/
theorem run_command_v2_go_spawn_le (cmd : List String) (capture : Bool)
    (childOf : Nat → ChildBehavior) (ans : Nat → Bool) :
    ∀ (fuel attempt : Nat),
      (run_command_v2_go cmd capture childOf ans attempt fuel).2 ≤ fuel + 1 := by
  intro fuel
  induction fuel with
  | zero =>
    intro attempt
    rcases hc : childOf attempt with _ | ⟨code, out, err⟩ <;>
      simp [run_command_v2_go, hc] <;> split_ifs <;> simp
  | succ fuel ih =>
    intro attempt
    rcases hc : childOf attempt with _ | ⟨code, out, err⟩
    · simp only [run_command_v2_go, hc]
      split_ifs
      · exact le_trans (ih (attempt + 1)) (by omega)
      · simp
    · simp [run_command_v2_go, hc]
      split_ifs
      all_goals simp
      all_goals (have hih := ih (attempt + 1); omega)

/-- Claim C6, amended:  The `Phases/liberary.py` executor spawns at most one
process and never retries, but on a non-zero exit it terminates the whole
installer with the child's exit code instead of returning an error to the
caller; the V2 executor raises a structured `InstallError` carrying the
command, exit code and diagnostic output only after deciding about retries
itself (up to two more attempts with operator consent, hence up to three
spawned processes). -/
theorem c6_executor_contract :
    (∀ (capture : Bool) (code : Nat) (out err : String), code ≠ 0 →
      run_command_phases capture (.ran code out err) = (.processExit code, 1)) ∧
    (∀ (capture : Bool) (child : ChildBehavior), (run_command_phases capture child).2 ≤ 1) ∧
    (∀ (cmd : List String) (capture : Bool) (code : Nat) (out : String)
        (childOf : Nat → ChildBehavior),
      childOf 0 = .ran code out "" → code ≠ 0 →
      run_command_v2 cmd capture childOf (fun _ => false) =
        (.installErrorFailed cmd code "No output" 1, 1)) ∧
    (∀ (cmd : List String) (capture : Bool) (childOf : Nat → ChildBehavior)
        (ans : Nat → Bool), (run_command_v2 cmd capture childOf ans).2 ≤ 3) := by
  refine ⟨?_, ?_, ?_, ?_⟩
  · intro capture code out err hcode
    simp [run_command_phases, hcode]
  · intro capture child
    rcases child with _ | ⟨code, out, err⟩ <;>
      simp [run_command_phases] <;> split_ifs <;> simp
  · intro cmd capture code out childOf hchild hcode
    simp [run_command_v2, run_command_v2_go, hchild, hcode]
  · intro cmd capture childOf ans
    exact run_command_v2_go_spawn_le cmd capture childOf ans 2 0

/-- Witness for `c6_executor_contract` at concrete inputs. -/
theorem c6_executor_contract_witness :
    run_command_phases false (.ran 7 "" "boom") = (.processExit 7, 1) ∧
      run_command_v2 ["pacman", "-Syy"] false (fun _ => .ran 5 "" "")
        (fun _ => false) = (.installErrorFailed ["pacman", "-Syy"] 5 "No output" 1, 1) :=
  ⟨c6_executor_contract.1 false 7 "" "boom" (by decide),
   c6_executor_contract.2.2.1 ["pacman", "-Syy"] false 5 "" (fun _ => .ran 5 "" "")
     rfl (by decide)⟩

/-- Claim C6, counterexample:  A failing child makes the `Phases` executor
terminate the installer (`sys.exit(7)`) rather than hand a structured error
back to the caller, and the V2 executor, given one failure and operator
consent, spawns a second process — the claimed exactly-one-spawn, no-retry,
caller-decides contract is false on both executors. -/
theorem c6_executor_counterexample :
    run_command_phases false (.ran 7 "" "boom") = (.processExit 7, 1) ∧
      run_command_v2 ["fdisk", "/dev/sda"] false
          (fun n => if n = 0 then .ran 1 "" "" else .ran 0 "" "") (fun _ => true) =
        (.ok none, 2) := by
  constructor
  · rfl
  · rfl

/-! ## Base install and exit codes (claims C7, C9) -/

inductive BaseInstallOutcome
  | aborted (exitCode : Nat)
  | failed (cmd : List String) (exitCode : Nat)
  | completed (fstab : String)
deriving DecidableEq

/-- The fixed command sequence `base_install` drives after the mirror-list
step (`src/Phases/base_install.py` lines 23–26). -/
def base_install_steps : List (List String) :=
  [ ["pacman", "-Syy"],
    ["pacman-key", "--init"],
    ["pacman-key", "--populate"],
    ["pacstrap", "/mnt", "base", "linux", "linux-firmware", "nano", "neovim", "sof-firmware",
      "base-devel", "grub", "grub-btrfs", "efibootmgr", "networkmanager", "snapper"] ]

/-- Drive a list of steps through the `Phases` executor: the first non-zero
exit terminates the run (`run_command` calls `sys.exit`).  Returns the
executed prefix and the failing command with its status, if any. -/
def runSteps (exec : List String → Nat) :
    List (List String) → List (List String) × Option (List String × Nat)
  | [] => ([], none)
  | c :: rest =>
    if exec c = 0 then
      let r := runSteps exec rest
      (c :: r.1, r.2)
    else ([c], some (c, exec c))

/-- Model of `base_install(country)` (`src/Phases/base_install.py` lines 11–29).
`reflectorOk` is whether the mirror-list refresh subprocess succeeded;
on failure the operator is asked whether to continue: declining prints
`Aborted.` and exits with status 0, consenting continues into the
package-database, bootstrap and fstab steps.  `exec` gives every later
command's exit status, `genOut` the captured `genfstab` output. -/
structure BaseInstallRun where
  executedAfterReflector : List (List String)
  outcome : BaseInstallOutcome
deriving DecidableEq

def base_install_model (reflectorOk : Bool) (consent : Bool)
    (exec : List String → Nat) (genOut : String) : BaseInstallRun :=
  if !reflectorOk && !consent then ⟨[], .aborted 0⟩
  else
    let r := runSteps exec base_install_steps
    match r.2 with
    | some f => ⟨r.1, .failed f.1 f.2⟩
    | none =>
      if exec ["genfstab", "-U", "/mnt"] = 0 then
        ⟨r.1 ++ [["genfstab", "-U", "/mnt"]], .completed genOut⟩
      else
        ⟨r.1 ++ [["genfstab", "-U", "/mnt"]],
          .failed ["genfstab", "-U", "/mnt"] (exec ["genfstab", "-U", "/mnt"])⟩

theorem runSteps_all_ok (exec : List String → Nat) :
    ∀ steps : List (List String), (∀ c ∈ steps, exec c = 0) →
      runSteps exec steps = (steps, none) := by
  intro steps
  induction steps with
  | nil => intro _; rfl
  | cons c rest ih =>
    intro h
    have hc : exec c = 0 := h c (by simp)
    simp [runSteps, hc, ih (fun d hd => h d (by simp [hd]))]

/-- Claim C9:  If the mirror-list refresh alone fails and the operator consents,
`base_install` still runs the package-database and bootstrap steps and reaches
the base-system-installed stage (assuming those steps themselves succeed); if
the operator declines, it stops — with exit status 0 — before running any of
them. -/
theorem c9_mirror_degradation (exec : List String → Nat) (genOut : String)
    (hall : ∀ cmd ∈ base_install_steps, exec cmd = 0)
    (hgen : exec ["genfstab", "-U", "/mnt"] = 0) :
    (base_install_model false true exec genOut).outcome = .completed genOut ∧
      (∀ cmd ∈ base_install_steps,
        cmd ∈ (base_install_model false true exec genOut).executedAfterReflector) ∧
      base_install_model false false exec genOut = ⟨[], .aborted 0⟩ := by
  have hrun := runSteps_all_ok exec base_install_steps hall
  refine ⟨?_, ?_, ?_⟩
  · simp [base_install_model, hrun, hgen]
  · intro cmd hmem
    simp [base_install_model, hrun, hgen]
    left
    exact hmem
  · rfl

/-- Witness for `c9_mirror_degradation` with every later step succeeding. -/
theorem c9_mirror_degradation_witness :
    (base_install_model false true (fun _ => 0) "fstab").outcome = .completed "fstab" ∧
      (∀ cmd ∈ base_install_steps,
        cmd ∈ (base_install_model false true (fun _ => 0) "fstab").executedAfterReflector) ∧
      base_install_model false false (fun _ => 0) "fstab" = ⟨[], .aborted 0⟩ :=
  c9_mirror_degradation (fun _ => 0) "fstab" (fun _ _ => rfl) rfl

/-! ## Exit codes (claim C7) -/

/-- The confirmation gate of `run_fdisk` (`src/New-V2/phases/fdisk_setup.py`
lines 54–56): declining prints `Aborted.` and exits with status 0 (`none`
means the pipeline continues). -/
def run_fdisk_confirm_exit (confirmAnswer : Bool) : Option Nat :=
  if confirmAnswer then none else some 0

/-- Model of `require_root` (`src/New-V2/check_requirements.py` lines 22–26): a
non-root effective uid exits 1. -/
def require_root_exit (euid : Nat) : Option Nat :=
  if euid ≠ 0 then some 1 else none

/-- Model of `checkUEFI` (`src/New-V2/phases/check_requirements.py` lines 6–16):
missing `/sys/firmware/efi` exits 1. -/
def checkUEFI_exit (efiPresent : Bool) : Option Nat :=
  if efiPresent then none else some 1

/-- Model of `ensure_command_exists` (`src/arch_install_v1.py` lines 10–13): a missing
dependency exits 1. -/
def ensure_command_exists_exit (present : Bool) : Option Nat :=
  if present then none else some 1

/-- Claim C7, amended:  The exit status is 0 on success *and on operator
abort* (declining the partitioning confirmation or the continue-after-mirror
failure both call `sys.exit(0)`); it is 1 on dependency / root / UEFI
validation failures; and it equals the failing external command's own exit
code when a destructive step fails (127 for a missing command in the New-V2
library). -/
theorem c7_exit_codes :
    (∀ (capture : Bool) (code : Nat) (out err : String), code ≠ 0 →
      (run_command_phases capture (.ran code out err)).1 = .processExit code) ∧
    run_command_newv2 .notFound = .processExit 127 ∧
    (∀ euid : Nat, euid ≠ 0 → require_root_exit euid = some 1) ∧
    checkUEFI_exit false = some 1 ∧
    ensure_command_exists_exit false = some 1 ∧
    run_fdisk_confirm_exit false = some 0 ∧
    (∀ (exec : List String → Nat) (genOut : String),
      base_install_model false false exec genOut = ⟨[], .aborted 0⟩) := by
  refine ⟨?_, rfl, ?_, rfl, rfl, rfl, ?_⟩
  · intro capture code out err hcode
    simp [run_command_phases, hcode]
  · intro euid h
    simp [require_root_exit, h]
  · intro exec genOut
    rfl

/-- Witness for `c7_exit_codes` at concrete inputs. -/
theorem c7_exit_codes_witness :
    (run_command_phases false (.ran 32 "" "")).1 = .processExit 32 ∧
      require_root_exit 1000 = some 1 :=
  ⟨c7_exit_codes.1 false 32 "" "" (by decide), c7_exit_codes.2.2.1 1000 (by decide)⟩

/-- Claim C7, counterexample:  Declining the destructive-partitioning
confirmation, and declining to continue after a mirror-list failure, both
terminate the installer with exit status 0, not the claimed 1. -/
theorem c7_exit_codes_counterexample :
    run_fdisk_confirm_exit false = some 0 ∧ (0 : Nat) ≠ 1 ∧
      (base_install_model false false (fun _ => 0) "").outcome = .aborted 0 := by
  refine ⟨rfl, by decide, rfl⟩

/-! ## Resources, interrupt and fatal-error cleanup (claim C3) -/

inductive Resource
  | mountPoint (path : String)
  | activeSwap (dev : String)
deriving DecidableEq

def isActiveSwap : Resource → Bool
  | .activeSwap _ => true
  | .mountPoint _ => false

/-- The filesystem / swap / subvolume / mount phase of `Arch-Install-V2.py`
`main` (lines 581–600), with `part1/2/3 = disk_base + "1"/"2"/"3"`
(lines 546–548). -/
def v2_fs_phase_cmds (disk_base : String) : List (List String) :=
  [ ["mkfs.fat", "-F32", "/dev/" ++ disk_base ++ "1"],
    ["mkswap", "/dev/" ++ disk_base ++ "2"],
    ["swapon", "/dev/" ++ disk_base ++ "2"],
    ["mkfs.btrfs", "/dev/" ++ disk_base ++ "3"],
    ["mount", "/dev/" ++ disk_base ++ "3", "/mnt"],
    ["btrfs", "su", "cr", "/mnt/@"],
    ["btrfs", "su", "cr", "/mnt/@home"],
    ["btrfs", "su", "cr", "/mnt/@var"],
    ["btrfs", "su", "cr", "/mnt/@snapshots"],
    ["umount", "/mnt"],
    ["mount", "-o", "noatime,compress=lzo,space_cache=v2,subvol=@",
      "/dev/" ++ disk_base ++ "3", "/mnt"],
    ["mkdir", "-p", "/mnt/boot", "/mnt/var", "/mnt/home", "/mnt/.snapshots"],
    ["mount", "-o", "noatime,compress=lzo,space_cache=v2,subvol=@home",
      "/dev/" ++ disk_base ++ "3", "/mnt/home"],
    ["mount", "-o", "noatime,compress=lzo,space_cache=v2,subvol=@var",
      "/dev/" ++ disk_base ++ "3", "/mnt/var"],
    ["mount", "-o", "noatime,compress=lzo,space_cache=v2,subvol=@snapshots",
      "/dev/" ++ disk_base ++ "3", "/mnt/.snapshots"],
    ["mount", "/dev/" ++ disk_base ++ "1", "/mnt/boot"] ]

/-- Effect of one command on the set of reversible resources the system holds
(mounts in the order they were made, active swap): `swapon` activates swap,
`mount` adds a mount point, `umount` removes it, `umount -R` removes every
mount at or below the given path.  Everything else leaves the resources
unchanged. -/
def applyCmd (rs : List Resource) (cmd : List String) : List Resource :=
  match cmd with
  | [c0, a1] =>
    if c0 = "swapon" then .activeSwap a1 :: rs
    else if c0 = "umount" then rs.filter (fun r => r ≠ .mountPoint a1)
    else rs
  | [c0, a1, a2] =>
    if c0 = "mount" then .mountPoint a2 :: rs
    else if c0 = "umount" && a1 = "-R" then
      rs.filter (fun r =>
        match r with
        | .mountPoint p => !(a2.data.isPrefixOf p.data)
        | .activeSwap _ => true)
    else rs
  | [c0, a1, _, _, a4] =>
    if c0 = "mount" && a1 = "-o" then .mountPoint a4 :: rs else rs
  | _ => rs

/-- Resources held after the first `k` commands of the filesystem phase. -/
def resourcesAfter (disk_base : String) (k : Nat) : List Resource :=
  ((v2_fs_phase_cmds disk_base).take k).foldl applyCmd []

/-- Model of `signal_handler` (`src/Arch-Install-V2.py` lines 342–353): a best-effort
`umount -R /mnt` — and nothing else; no `swapoff` — before `sys.exit(1)`. -/
def signal_handler_cleanup (rs : List Resource) : List Resource :=
  applyCmd rs ["umount", "-R", "/mnt"]

/-- The fatal-error paths — the `InstallError` handler of `main`
(`src/Arch-Install-V2.py` lines 697–700) and the `sys.exit` inside
`run_command` (`src/Phases/liberary.py` lines 33–42) — run no release at
all. -/
def fatal_error_cleanup (rs : List Resource) : List Resource := rs

/-- A resource is compatible with the recursive unmount: every mount point
lies at or below `/mnt`. -/
def mntOk : Resource → Bool
  | .mountPoint p => ("/mnt" : String).data.isPrefixOf p.data
  | .activeSwap _ => true

/-- Does a command only ever mount below `/mnt`? -/
def cmdMntOk (cmd : List String) : Bool :=
  match cmd with
  | [c0, _, a2] => !(c0 = "mount") || ("/mnt" : String).data.isPrefixOf a2.data
  | [c0, a1, _, _, a4] =>
    !(c0 = "mount" && a1 = "-o") || ("/mnt" : String).data.isPrefixOf a4.data
  | _ => true

theorem all_filter_of_all (p q : Resource → Bool) (rs : List Resource)
    (h : rs.all q = true) : (rs.filter p).all q = true := by
  rw [List.all_eq_true] at h ⊢
  intro r hr
  exact h r (List.mem_of_mem_filter hr)

theorem applyCmd_preserves_mntOk (rs : List Resource) (cmd : List String)
    (hrs : rs.all mntOk = true) (hcmd : cmdMntOk cmd = true) :
    (applyCmd rs cmd).all mntOk = true := by
  rcases cmd with _ | ⟨c0, _ | ⟨a1, _ | ⟨a2, _ | ⟨a3, _ | ⟨a4, _ | ⟨a5, rest⟩⟩⟩⟩⟩⟩
  · exact hrs
  · exact hrs
  · simp only [applyCmd]
    split_ifs
    · simp [mntOk, hrs]
    · exact all_filter_of_all _ _ rs hrs
    · exact hrs
  · simp only [applyCmd, cmdMntOk] at hcmd ⊢
    split_ifs with h1 h2
    · rw [h1] at hcmd
      simp at hcmd
      simp [mntOk, hrs, hcmd]
    · exact all_filter_of_all _ _ rs hrs
    · exact hrs
  · exact hrs
  · simp only [applyCmd, cmdMntOk] at hcmd ⊢
    split_ifs with h1
    · rw [Bool.and_eq_true] at h1
      rw [h1.1, h1.2] at hcmd
      simp at hcmd
      simp [mntOk, hrs, hcmd]
    · exact hrs
  · exact hrs

theorem foldl_applyCmd_mntOk :
    ∀ (cmds : List (List String)) (rs : List Resource),
      rs.all mntOk = true → (∀ c ∈ cmds, cmdMntOk c = true) →
      (cmds.foldl applyCmd rs).all mntOk = true := by
  intro cmds
  induction cmds with
  | nil => intro rs h _; simpa using h
  | cons c rest ih =>
    intro rs h hall
    simp only [List.foldl_cons]
    exact ih (applyCmd rs c) (applyCmd_preserves_mntOk rs c h (hall c (by simp)))
      (fun d hd => hall d (by simp [hd]))

/-- Claim C3, amended:  On an operator interrupt the V2 signal handler's
recursive `umount -R /mnt` does remove every tracked mount (all the
pipeline's mount points lie below `/mnt`), but it never deactivates swap —
whatever survives the handler is exactly the active-swap resources; and the
fatal-error paths perform no release at all. -/
theorem c3_cleanup_partial :
    (∀ (disk_base : String) (k : Nat),
      ((signal_handler_cleanup (resourcesAfter disk_base k)).all isActiveSwap) = true) ∧
    (∀ rs : List Resource, fatal_error_cleanup rs = rs) := by
  constructor
  · intro disk_base k
    have hall : (resourcesAfter disk_base k).all mntOk = true := by
      apply foldl_applyCmd_mntOk
      · rfl
      · intro c hc
        have hc2 : c ∈ v2_fs_phase_cmds disk_base := List.take_subset k _ hc
        fin_cases hc2 <;> simp [cmdMntOk]
    unfold signal_handler_cleanup
    simp only [applyCmd]
    rw [if_neg (by decide), if_pos (by decide)]
    rw [List.all_eq_true] at hall ⊢
    intro r hr
    rw [List.mem_filter] at hr
    obtain ⟨hmem, hpred⟩ := hr
    rcases r with p | d
    · have hp := hall _ hmem
      simp only [mntOk] at hp
      simp only [hp] at hpred
      simp at hpred
    · rfl
  · intro rs
    rfl

/-- Claim C3, counterexample:  Interrupting after the full mount phase on disk
`sda` leaves the active swap `/dev/sda2` tracked after the signal handler has
run — the cleanup does not release every acquired resource, and the
fatal-error path releases none (the mount set itself is nonempty there). -/
theorem c3_swap_survives_counterexample :
    signal_handler_cleanup (resourcesAfter "sda" 16) =
        [Resource.activeSwap "/dev/sda2"] ∧
      ([Resource.activeSwap "/dev/sda2"] : List Resource) ≠ [] ∧
      fatal_error_cleanup (resourcesAfter "sda" 16) = resourcesAfter "sda" 16 ∧
      resourcesAfter "sda" 16 ≠ [] := by
  refine ⟨by decide, by decide, rfl, by decide⟩

/-! ## Dry-run behaviour of the V2 pipeline head (claim C1) -/

/-- Model of `FDISK_TEMPLATE` (`src/Arch-Install-V2.py` lines 16–49): the scripted
`fdisk` input that creates the new GPT and the three partitions. -/
def FDISK_TEMPLATE_V2 : String := "# Create new GPT\ng\n# Partition 1: EFI System (256MB)\nn\n1\n\n+256M\n# Partition 2: swap (4G)\nn\n2\n\n+4G\n# Partition 3: root (rest of disk)\nn\n3\n\n\n# Type for p1 -> EFI (1)\nt\n1\n1\n# Type for p2 -> Linux swap (19)\nt\n2\n19\n# Type for p3 -> Linux filesystem (20)\nt\n3\n20\n# Print and write\np\nw\n"

/-- Environment facts `main` consults on the way to partitioning
(`src/Arch-Install-V2.py` lines 386–478). -/
structure V2Env where
  rootUefiOk : Bool
  networkOk : Bool
  depsPresent : Bool
  diskSpaceOk : Bool
deriving DecidableEq

/-- The operator's answers to the confirmation prompts before partitioning. -/
structure V2Answers where
  continueWithoutNetwork : Bool
  confirmDestroy : Bool
  continueLowSpace : Bool
  confirmGpt : Bool
deriving DecidableEq

/-- The disk-selection loop (`src/Arch-Install-V2.py` lines 439–444):
re-prompt until the stripped line passes `validate_disk_name`. -/
def acceptDiskName : List String → Option String
  | [] => none
  | s :: rest =>
    let n : String := ⟨pyStrip s.data⟩
    if validate_disk_name n then some n else acceptDiskName rest

/-- Commands the specification classifies destructive: partitioning (`fdisk`
driven by a script on stdin — `fdisk -l` only reads), filesystem creation,
swap creation/activation, mounting. -/
def isDestructiveInvocation (inv : Invocation) : Bool :=
  match inv.argv with
  | "fdisk" :: _ => inv.stdinText.isSome
  | "mkfs.fat" :: _ => true
  | "mkfs.btrfs" :: _ => true
  | "mkswap" :: _ => true
  | "swapon" :: _ => true
  | "mount" :: _ => true
  | _ => false

/-- The subprocess invocations `main` performs from the compatibility checks
up to and including the partitioning step (`src/Arch-Install-V2.py`
lines 380–483).  `dryRun` is `config.dry_run`: after printing the banner at
line 383 the code never consults it again, so it is an unused argument here —
exactly as in the source.  The trace stops early wherever the code returns or
raises; `diskInputs` are the lines typed at the disk prompt. -/
def v2_main_trace (dryRun autoConfirm backup : Bool) (env : V2Env) (ans : V2Answers)
    (diskInputs : List String) : List Invocation :=
  if !env.rootUefiOk then []    -- require_root() raised: exit 1 before any subprocess
  else
    -- check_network_connectivity (line 391): ping
    let t0 := [Invocation.mk ["ping", "-c", "1", "8.8.8.8"] none]
    if !env.networkOk && !ans.continueWithoutNetwork then t0
    else
      -- test_network_speed (line 397): curl
      let t1 := t0 ++ [⟨["curl", "-s", "--max-time", "10",
        "https://archlinux.org/mirrors/status/json/"], none⟩]
      if !env.depsPresent then t1        -- InstallError: missing commands (line 423)
      else if !autoConfirm && !ans.confirmDestroy then t1   -- abort (line 432)
      else
        -- list_disks (line 436): lsblk
        let t2 := t1 ++ [⟨["lsblk", "-o", "NAME,SIZE,TYPE,MOUNTPOINT,FSTYPE"], none⟩]
        match acceptDiskName diskInputs with
        | none => t2                     -- still prompting for a valid disk name
        | some disk_base =>
          -- check_disk_space (line 449): df
          let disk_path := "/dev/" ++ disk_base
          let t3 := t2 ++ [⟨["df", "-BG", disk_path], none⟩]
          if !env.diskSpaceOk && !ans.continueLowSpace then t3   -- abort (line 452)
          else
            -- show the current partition table (line 460): fdisk -l (read-only)
            let t4 := t3 ++ [⟨["fdisk", "-l", disk_path], none⟩]
            if !autoConfirm && !ans.confirmGpt then t4           -- abort (line 469)
            else
              -- optional backup (line 476): sfdisk -d
              let t5 := if backup then t4 ++ [⟨["sfdisk", "-d", disk_path], none⟩] else t4
              -- Partitioning (line 481): fdisk fed the GPT template — destructive
              t5 ++ [⟨["fdisk", disk_path], some FDISK_TEMPLATE_V2⟩]

/-- Claim C1, code bug:  `config.dry_run` is read once to print the banner and
never again: the invocation trace is identical with and without the flag, and
a dry run in a compliant environment with an all-yes operator reaches the
destructive scripted-`fdisk` invocation — the pipeline does not halt after
the confirmation stage. -/
theorem c1_dry_run_not_honoured :
    (∀ (autoConfirm backup : Bool) (env : V2Env) (ans : V2Answers)
        (inputs : List String),
      v2_main_trace true autoConfirm backup env ans inputs =
        v2_main_trace false autoConfirm backup env ans inputs) ∧
    (v2_main_trace true true false ⟨true, true, true, true⟩ ⟨true, true, true, true⟩
        ["sda"]).any isDestructiveInvocation = true := by
  constructor
  · intro autoConfirm backup env ans inputs
    rfl
  · decide

end Scripts
